import Mathlib

/-!
Verification of the XRPL explorer's ledger data-access and normalization layer.

The definitions below are a shallow embedding of the TypeScript sources:
  - src/services/xrpl/utils.ts  (validateXRPLAddress, getClient, formatXRPAmount,
    formatXRPLDate, hexToAscii)
  - src/services/xrpl/transactions.ts  (fetchTransactions, fetchTransactionDetails)
  - src/services/xrpl/balance.ts  (fetchBalance)
  - src/services/xrpl.ts  (the basic validateXRPLAddress variant)

JavaScript values that may be `undefined` are embedded as `Option`; JavaScript
truthiness on strings (only the empty string is falsy) and on numbers (only 0 is
falsy) is made explicit.  JavaScript numbers are embedded as exact fractions
(`JsNum`, an integer numerator over a natural denominator, interpreted into `ℚ`
by `JsNum.toQ`); every numeric value this code manipulates is far below the
2⁵³ bound where IEEE doubles stop being exact, so exact fractions are a faithful
model.  Network I/O and exceptions are embedded as an explicit environment
(`ReqOutcome`) and the `finally`-block session disposal as an event trace.
-/

/-! ## Exact model of the JavaScript numbers used by this code -/

/-- A JavaScript number, modelled as an exact (unreduced) fraction.  The
denominator is kept positive by construction in all operations below. -/
structure JsNum where
  num : Int
  den : Nat
deriving DecidableEq

/-- Embed a natural number. -/
def JsNum.ofNat (n : Nat) : JsNum := ⟨n, 1⟩

/-- Addition of fractions (no normalization). -/
def JsNum.add (a b : JsNum) : JsNum :=
  ⟨a.num * b.den + b.num * a.den, a.den * b.den⟩

/-- Subtraction of fractions. -/
def JsNum.sub (a b : JsNum) : JsNum :=
  ⟨a.num * b.den - b.num * a.den, a.den * b.den⟩

/-- Multiplication of fractions. -/
def JsNum.mul (a b : JsNum) : JsNum := ⟨a.num * b.num, a.den * b.den⟩

/-- Reciprocal, keeping the denominator nonnegative. -/
def JsNum.inv (a : JsNum) : JsNum :=
  if 0 ≤ a.num then ⟨(a.den : Int), a.num.natAbs⟩ else ⟨-(a.den : Int), a.num.natAbs⟩

/-- Division of fractions. -/
def JsNum.div (a b : JsNum) : JsNum := a.mul b.inv

/-- Strict comparison by cross-multiplication (denominators are positive). -/
def JsNum.blt (a b : JsNum) : Bool := decide (a.num * b.den < b.num * a.den)

/-- Value equality by cross-multiplication. -/
def JsNum.beq (a b : JsNum) : Bool := decide (a.num * b.den = b.num * a.den)

/-- JavaScript `Math.max` on two numbers. -/
def JsNum.maxJ (a b : JsNum) : JsNum := if a.blt b then b else a

/-- Floor of the represented value (`Int./` is Euclidean division, which is the
floor for a positive divisor). -/
def JsNum.floorQ (a : JsNum) : Int := a.num / (a.den : Int)

/-- Round half up, the rounding `toFixed` performs. -/
def JsNum.roundQ (a : JsNum) : Int := (a.add ⟨1, 2⟩).floorQ

/-- The rational value represented. -/
def JsNum.toQ (a : JsNum) : ℚ := (a.num : ℚ) / (a.den : ℚ)

/-- JavaScript number truthiness: only 0 is falsy here (NaN never reaches a
truthiness test in the embedded code paths). -/
def truthyJ : Option JsNum → Bool
  | none => false
  | some q => !q.beq (JsNum.ofNat 0)

/-! ## Decimal printing (`toFixed(6)`) -/

/-- Decimal digit character for d < 10 ('0'..'9'). -/
def digitChar (d : Nat) : Char := Char.ofNat (48 + d)

/-- Fuel-driven decimal printing of a natural number (most significant digit
first), mirroring JavaScript integer-to-string conversion. -/
def natDigitsCore : Nat → Nat → List Char → List Char
  | 0, _, acc => acc
  | fuel + 1, n, acc =>
    if n < 10 then digitChar n :: acc
    else natDigitsCore fuel (n / 10) (digitChar (n % 10) :: acc)

/-- Decimal rendering of a natural number. -/
def natStr (n : Nat) : String := ⟨natDigitsCore (n + 1) n []⟩

/-- The six fraction digits printed by `toFixed(6)`: the value `k < 1_000_000`
zero-padded to exactly six decimal digits. -/
def padSix (k : Nat) : String :=
  ⟨[digitChar (k / 100000 % 10), digitChar (k / 10000 % 10), digitChar (k / 1000 % 10),
    digitChar (k / 100 % 10), digitChar (k / 10 % 10), digitChar (k % 10)]⟩

/-- `Number.prototype.toFixed(6)`: round to the nearest multiple of 10⁻⁶ (ties
up) and print with exactly six digits after the decimal point. -/
def toFixed6 (q : JsNum) : String :=
  let m : Int := (q.mul (JsNum.ofNat 1000000)).roundQ
  let n : Nat := m.natAbs
  (if m < 0 then "-" else "") ++ natStr (n / 1000000) ++ "." ++ padSix (n % 1000000)

/-- `toFixed(6)` lifted to `Option`: `none` models the JavaScript NaN, which
`toFixed` renders as "NaN". -/
def toFixed6Opt : Option JsNum → String
  | none => "NaN"
  | some q => toFixed6 q

/-! ## String helpers shared by the embedded functions -/

/-- JavaScript string truthiness: only the empty string is falsy. -/
def truthyS : Option String → Bool
  | none => false
  | some s => !s.data.isEmpty

/-- Value of a natural number written as a list of decimal digit characters. -/
def natOfDigits (cs : List Char) : Nat :=
  cs.foldl (fun a c => 10 * a + (c.toNat - 48)) 0

/-- Exact model of JavaScript `parseFloat` on the fragment this program feeds
it: an unsigned decimal literal (digits, optionally a dot and more digits);
trailing garbage is ignored, and a string with no leading digit parses to NaN
(`none`).  Signs and exponents never occur in this code base. -/
def parseFloatJs (s : String) : Option JsNum :=
  if (s.data.takeWhile Char.isDigit).isEmpty then none
  else
    match s.data.dropWhile Char.isDigit with
    | '.' :: rs =>
      some ⟨(natOfDigits (s.data.takeWhile Char.isDigit) : Int) *
              10 ^ (rs.takeWhile Char.isDigit).length +
              natOfDigits (rs.takeWhile Char.isDigit),
            10 ^ (rs.takeWhile Char.isDigit).length⟩
    | _ => some ⟨(natOfDigits (s.data.takeWhile Char.isDigit) : Int), 1⟩

/-- `s.startsWith(p)` on character lists. -/
def startsWithL : List Char → List Char → Bool
  | _, [] => true
  | [], _ :: _ => false
  | a :: as, b :: bs => a == b && startsWithL as bs

/-- JavaScript `String.prototype.startsWith`. -/
def strStartsWith (s p : String) : Bool := startsWithL s.data p.data

/-! ## utils.ts: formatXRPAmount, hexToAscii -/

/-- The `string | number | { value: string } | undefined` union accepted by
`formatXRPAmount` in utils.ts. -/
inductive AmountV : Type
  | str (s : String)
  | num (q : JsNum)
  | obj (value : String)
  | undefV
deriving DecidableEq

/-- JavaScript truthiness of an `AmountV`: `""`, `0` and `undefined` are falsy,
every object is truthy. -/
def truthyA : AmountV → Bool
  | .str s => !s.data.isEmpty
  | .num q => !q.beq (JsNum.ofNat 0)
  | .obj _ => true
  | .undefV => false

/-- utils.ts `formatXRPAmount`: falsy input renders as the zero sentinel,
otherwise the parsed value is divided by 1_000_000 and printed with
`toFixed(6)` plus the fixed " XRP" suffix.  (`NaN.toFixed(6)` is "NaN".) -/
def formatXRPAmount (amount : AmountV) : String :=
  if truthyA amount = false then "0.000000 XRP"
  else
    let amountValue : Option JsNum :=
      match amount with
      | .obj v => parseFloatJs v
      | .str s => parseFloatJs s
      | .num q => some q
      | .undefV => none
    toFixed6Opt (amountValue.map (fun v => v.div (JsNum.ofNat 1000000))) ++ " XRP"

/-- Is `c` a hexadecimal digit (as accepted by `parseInt(·, 16)`). -/
def isHexDigitC (c : Char) : Bool :=
  ('0' ≤ c && c ≤ '9') || ('a' ≤ c && c ≤ 'f') || ('A' ≤ c && c ≤ 'F')

/-- Numeric value of a hexadecimal digit character. -/
def hexDigitVal (c : Char) : Nat :=
  if '0' ≤ c && c ≤ '9' then c.toNat - 48
  else if 'a' ≤ c && c ≤ 'f' then c.toNat - 87
  else if 'A' ≤ c && c ≤ 'F' then c.toNat - 55
  else 0

/-- JavaScript `parseInt(pair, 16)` for a one- or two-character slice: parses
the longest valid prefix; a fully invalid slice gives NaN, and
`String.fromCharCode(NaN)` yields the NUL character, modelled as code 0. -/
def hexByte (a : Char) (b : Option Char) : Nat :=
  if isHexDigitC a then
    match b with
    | some b' => if isHexDigitC b' then 16 * hexDigitVal a + hexDigitVal b' else hexDigitVal a
    | none => hexDigitVal a
  else 0

/-- The pairwise loop of utils.ts `hexToAscii`. -/
def hexPairsToChars : List Char → List Char
  | [] => []
  | [a] => [Char.ofNat (hexByte a none)]
  | a :: b :: rest => Char.ofNat (hexByte a (some b)) :: hexPairsToChars rest

/-- utils.ts `hexToAscii`: decode hexadecimal byte pairs into characters. -/
def hexToAscii (hex : String) : String := ⟨hexPairsToChars hex.data⟩

example : formatXRPAmount (.str "12345678") = "12.345678 XRP" := by decide
example : hexToAscii "426974426F62506179" = "BitBobPay" := by decide
example : strStartsWith "BitBobPay" "BitBob" = true := by decide
example : formatXRPAmount .undefV = "0.000000 XRP" := by decide
example : toFixed6 ((JsNum.ofNat 25000000).div (JsNum.ofNat 1000000)) = "25.000000" := by decide

/-! ## Data model of the raw node replies (transactions.ts) -/

/-- A `SourceTag` as it arrives on the wire: the code compares it against both
the number `29202152` and the string `"29202152"`. -/
inductive TagV : Type
  | num (n : Int)
  | str (s : String)
deriving DecidableEq

/-- One entry of the raw `Memos` array (`memoObj.Memo.MemoData`, flattened). -/
structure MemoObj where
  MemoData : Option String
deriving DecidableEq

/-- The execution metadata of a raw transaction. -/
structure TxMeta where
  delivered_amount : Option String
  TransactionResult : Option String
deriving DecidableEq

/-- The `tx_json` envelope of one entry of an `account_tx` reply. -/
structure TxJson where
  DeliverMax : Option String
  Amount : AmountV
  Destination : Option String
  TransactionType : Option String
  SourceTag : Option TagV
  Memos : List MemoObj
  date : Option JsNum
  Fee : Option String
  Account : Option String
deriving DecidableEq

/-- One raw entry of an `account_tx` reply. -/
structure AccountTxEntry where
  tx_json : Option TxJson
  meta : Option TxMeta
  close_time_iso : Option String
  hash : Option String
deriving DecidableEq

/-- The canonical list-query output record built by `fetchTransactions`. -/
structure Transaction where
  hash : String
  type : String
  date : String
  amount : String
  fee : String
  status : Option String
  from_ : Option String
  to_ : String
  memo : Option String
  isBitbob : Bool
deriving DecidableEq

/-- The raw single-transaction (`tx` command) reply body used by
`fetchTransactionDetails`. -/
structure TxInfo where
  hash : Option String
  TransactionType : Option String
  date : Option JsNum
  close_time_iso : Option String
  Amount : AmountV
  DeliverMax : Option String
  Fee : Option String
  meta : TxMeta
  SourceTag : Option TagV
  Account : Option String
  Destination : Option String
  Memos : List MemoObj
deriving DecidableEq

/-- The canonical single-transaction output record built by
`fetchTransactionDetails` (the claim-relevant fields). -/
structure TransactionDetail where
  hash : Option String
  type : Option String
  date : Option String
  amount : String
  fee : String
  status : Option String
  from_ : Option String
  to_ : Option String
  memo : Option String
  isBitbob : Bool
deriving DecidableEq

/-! ## Date handling (utils.ts formatXRPLDate and the two call sites) -/

/-- Modelled from the spec: ISO-8601 parsing is performed by the JavaScript
`Date` built-in, outside this repository.  Only which input string feeds the
date matters to the claims, so the parse is modelled as a fixed injective-in-
practice function of the string to a millisecond count. -/
def dateParseMs (iso : String) : JsNum :=
  JsNum.ofNat (iso.data.foldl (fun a c => a * 256 + c.toNat) 0)

/-- Modelled from the spec: `Date.prototype.toLocaleString` renders an absolute
instant in the runtime's locale, outside this repository.  The claims only
depend on which instant is rendered, so it is modelled as an injective
rendering of the millisecond timestamp. -/
def dateLocaleString (ms : JsNum) : String :=
  "locale:" ++ (if ms.num < 0 then "-" else "") ++ natStr ms.num.natAbs ++ ":" ++ natStr ms.den

/-- utils.ts `formatXRPLDate`: shift from the ripple epoch (946,684,800 s after
the Unix epoch) to Unix milliseconds and render in local display form. -/
def formatXRPLDate (rippleEpochDate : JsNum) : String :=
  dateLocaleString ((rippleEpochDate.add (JsNum.ofNat 946684800)).mul (JsNum.ofNat 1000))

/-- The timestamp selection of `fetchTransactions` (transactions.ts:151-157):
prefer the ISO field, else the ripple-epoch integer; `formatXRPLDate(undefined)`
produces an invalid date, rendered "Invalid Date". -/
def listDate (close_time_iso : Option String) (date : Option JsNum) : String :=
  let timestamp : Option JsNum :=
    if truthyS close_time_iso then
      some ((dateParseMs (close_time_iso.getD "")).div (JsNum.ofNat 1000))
    else date
  match timestamp with
  | some t => formatXRPLDate t
  | none => "Invalid Date"

/-! ## Field reconciliation helpers of fetchTransactions -/

/-- The BitBob source-tag test (`tag === 29202152 || tag === "29202152"`). -/
def bitbobTag : Option TagV → Bool
  | some (.num n) => n == 29202152
  | some (.str s) => s == "29202152"
  | _ => false

/-- The amount selection of `fetchTransactions` (transactions.ts:120-129):
delivered amount, else `DeliverMax`, else a string `Amount`, else the `value`
of an object `Amount`, else `'0'`. -/
def listAmount (txData : TxJson) (meta : TxMeta) : String :=
  if truthyS meta.delivered_amount then meta.delivered_amount.getD ""
  else if truthyS txData.DeliverMax then txData.DeliverMax.getD ""
  else
    match txData.Amount with
    | .str s => s
    | .obj v => if v.data.isEmpty then "0" else v
    | _ => "0"

/-- Follows the spec's words, for comparison with the code: the canonical
amount is chosen with precedence delivered/settled amount over
instruction-declared maximum (`DeliverMax`) over instruction-declared amount. -/
def claimPrecAmount (delivered deliverMax : Option String) (amount : AmountV) : String :=
  if truthyS delivered then delivered.getD ""
  else if truthyS deliverMax then deliverMax.getD ""
  else
    match amount with
    | .str s => s
    | .obj v => if v.data.isEmpty then "0" else v
    | _ => "0"

/-- The destination fallback of `fetchTransactions` (transactions.ts:131-132):
`Destination || (type === 'OfferCreate' ? 'XRPL DEX' : 'Unknown')`. -/
def listDestination (txData : TxJson) : String :=
  match txData.Destination with
  | some s =>
    if s.data.isEmpty then
      if txData.TransactionType == some "OfferCreate" then "XRPL DEX" else "Unknown"
    else s
  | none =>
    if txData.TransactionType == some "OfferCreate" then "XRPL DEX" else "Unknown"

/-- The classification flag of `fetchTransactions` (transactions.ts:134-149),
in the sequential shape of the source: the tag check runs first, then the memo
of the first `Memos` entry may also set the flag. -/
def listIsBitbob (txData : TxJson) : Bool :=
  let afterTag : Bool := bitbobTag txData.SourceTag
  if txData.Memos.length > 0 then
    match txData.Memos.head? with
    | some mo =>
      match mo.MemoData with
      | some md =>
        if md.data.isEmpty then afterTag
        else if strStartsWith (hexToAscii md) "BitBob" then true
        else afterTag
      | none => afterTag
    | none => afterTag
  else afterTag

/-- The decoded memo of `fetchTransactions` (`memo || undefined`). -/
def listMemo (txData : TxJson) : Option String :=
  if txData.Memos.length > 0 then
    match txData.Memos.head? with
    | some mo =>
      match mo.MemoData with
      | some md =>
        if md.data.isEmpty then none
        else
          let m := hexToAscii md
          if m.data.isEmpty then none else some m
      | none => none
    | none => none
  else none

/-- `o || dflt` for a string-valued field. -/
def orElseStr (o : Option String) (dflt : String) : String :=
  match o with
  | some s => if s.data.isEmpty then dflt else s
  | none => dflt

/-- A `string | undefined` field passed on to `formatXRPAmount`. -/
def optToAmount : Option String → AmountV
  | some s => .str s
  | none => .undefV

/-- The per-entry normalization of `fetchTransactions` (transactions.ts:108-167):
`null` (here `none`) when the envelope lacks `tx_json`, `meta` or a truthy
`hash`, otherwise the canonical record. -/
def normalizeListTx (e : AccountTxEntry) : Option Transaction :=
  match e.tx_json, e.meta with
  | some txData, some meta =>
    if truthyS e.hash = false then none
    else some {
      hash := e.hash.getD "",
      type := orElseStr txData.TransactionType "Unknown",
      date := listDate e.close_time_iso txData.date,
      amount := formatXRPAmount (.str (listAmount txData meta)),
      fee := formatXRPAmount (optToAmount txData.Fee),
      status := meta.TransactionResult,
      from_ := txData.Account,
      to_ := listDestination txData,
      memo := listMemo txData,
      isBitbob := listIsBitbob txData }
  | _, _ => none

/-- The output filter of `fetchTransactions` (transactions.ts:168-174):
`Boolean(tx?.hash && tx?.from && tx?.status)`. -/
def viableTx (t : Transaction) : Bool :=
  !t.hash.data.isEmpty && truthyS t.from_ && truthyS t.status

/-- Normalization of a whole `account_tx` page. -/
def processTransactions (entries : List AccountTxEntry) : List Transaction :=
  (entries.filterMap normalizeListTx).filter viableTx

/-! ## fetchTransactionDetails normalization (transactions.ts:13-76) -/

/-- The amount selection of `fetchTransactionDetails` (transactions.ts:36):
`txInfo.meta?.delivered_amount || txInfo.Amount || txInfo.DeliverMax` — a
JavaScript `||` chain, so the first truthy operand wins and the last operand is
used (even if falsy or undefined) when the others are falsy. -/
def detailsAmountSel (ti : TxInfo) : AmountV :=
  if truthyS ti.meta.delivered_amount then .str (ti.meta.delivered_amount.getD "")
  else if truthyA ti.Amount then ti.Amount
  else optToAmount ti.DeliverMax

/-- The normalization of `fetchTransactionDetails` (transactions.ts:32-59). -/
def detailsNormalize (ti : TxInfo) : TransactionDetail :=
  let memoData : Option String := ti.Memos.head?.bind MemoObj.MemoData
  let memo : Option String :=
    match memoData with
    | some md => if md.data.isEmpty then none else some (hexToAscii md)
    | none => none
  { hash := ti.hash,
    type := ti.TransactionType,
    date := if truthyJ ti.date then some (formatXRPLDate (ti.date.getD (JsNum.ofNat 0)))
            else ti.close_time_iso,
    amount := formatXRPAmount (detailsAmountSel ti),
    fee := formatXRPAmount (optToAmount ti.Fee),
    status := ti.meta.TransactionResult,
    from_ := ti.Account,
    to_ := ti.Destination,
    memo := memo,
    isBitbob := bitbobTag ti.SourceTag ||
      (match memo with
       | some m => !m.data.isEmpty && strStartsWith m "BitBob"
       | none => false) }

/-! ## balance.ts: fetchBalance normalization -/

/-- The `account_data` portion of an `account_info` reply. -/
structure AccountData where
  Balance : Option String
  OwnerCount : Option Nat
deriving DecidableEq

/-- The canonical balance record. -/
structure BalanceDetails where
  total : String
  available : String
  reserve : String
deriving DecidableEq

/-- The zero-balance sentinel returned on missing data and on any failure. -/
def zeroBalance : BalanceDetails :=
  { total := "0.000000 XRP", available := "0.000000 XRP", reserve := "0.000000 XRP" }

/-- JavaScript `Number(·)` on the strings this code feeds it: `undefined` is
NaN (`none`), the empty string is 0, and a decimal literal parses exactly. -/
def numberJs : Option String → Option JsNum
  | none => none
  | some s => if s.data.isEmpty then some (JsNum.ofNat 0) else parseFloatJs s

/-- The normalization of `fetchBalance` (balance.ts:27-40): base reserve 10 XRP,
2 XRP per owned object, `available = max(0, total - reserve)`, all rendered with
`toFixed(6)` and the " XRP" suffix. -/
def computeBalanceDetails (accountData : AccountData) : BalanceDetails :=
  let ownerCount : Nat := accountData.OwnerCount.getD 0
  let baseReserve : JsNum := JsNum.ofNat 10
  let ownerReserve : JsNum := JsNum.ofNat 2
  let totalBalance : Option JsNum :=
    (numberJs accountData.Balance).map (fun b => b.div (JsNum.ofNat 1000000))
  let reserveRequirement : JsNum := baseReserve.add ((JsNum.ofNat ownerCount).mul ownerReserve)
  let availableBalance : Option JsNum :=
    totalBalance.map (fun t => (JsNum.ofNat 0).maxJ (t.sub reserveRequirement))
  { total := toFixed6Opt totalBalance ++ " XRP",
    available := toFixed6Opt availableBalance ++ " XRP",
    reserve := toFixed6 reserveRequirement ++ " XRP" }

/-! ## Connection manager and façade control flow

`getClient` (utils.ts:8-23) tries every endpoint of the (shuffled) pool in
order and throws when all fail.  The pool traversal order is embedded as the
given list of per-endpoint connection outcomes; the successful client is
identified by its endpoint index.  Each façade operation wraps its body in
`try/catch/finally`: the `catch` converts any thrown error into the safe
default return value, and the `finally` disconnects the client exactly when one
was acquired.  Exceptions are embedded as explicit outcome values, and the
`finally` disposal as an event trace. -/

/-- Outcome of the single `client.request` a façade operation issues: the
request may throw, or return a payload (`none` models a reply missing the
required `result` content). -/
inductive ReqOutcome (α : Type) : Type
  | throw
  | ok (a : α)
deriving DecidableEq

/-- Session lifecycle events, recorded in order. -/
inductive Event : Type
  | connect (i : Nat)
  | disconnect (i : Nat)
deriving DecidableEq

/-- utils.ts `getClient`: first endpoint that connects wins (identified by its
index in the traversal order); if every endpoint fails, the
"Could not connect to any XRPL server" error is thrown. -/
def getClientE : List Bool → Except Unit Nat
  | [] => .error ()
  | b :: rest => if b then .ok 0 else (getClientE rest).map (· + 1)

/-- The environment of one `fetchTransactions` call: per-endpoint connection
outcomes, the request outcome, and whether normalization of the reply throws
(e.g. an unexpected shape). -/
structure TxEnv where
  connects : List Bool
  response : ReqOutcome (Option (List AccountTxEntry))
  normThrows : Bool
deriving DecidableEq

/-- The environment of one `fetchBalance` call. -/
structure BalEnv where
  connects : List Bool
  response : ReqOutcome (Option AccountData)
deriving DecidableEq

/-- The environment of one `fetchTransactionDetails` call. -/
structure DetailsEnv where
  connects : List Bool
  response : ReqOutcome (Option TxInfo)
  normThrows : Bool
deriving DecidableEq

/-- `fetchTransactions` (transactions.ts:80-189): value returned to the caller
together with the session events.  Acquisition failure is caught and defaulted
to `[]` with no session to dispose; after acquisition, every path — normal,
empty-reply early return, request throw, normalization throw — returns through
the `finally` that disconnects the acquired client once. -/
def fetchTransactionsRun (env : TxEnv) : List Transaction × List Event :=
  match getClientE env.connects with
  | .error _ => ([], [])
  | .ok c =>
    let result : List Transaction :=
      match env.response with
      | .throw => []
      | .ok none => []
      | .ok (some entries) =>
        if entries.length == 0 then []
        else if env.normThrows then []
        else processTransactions entries
    (result, [Event.connect c, Event.disconnect c])

/-- `fetchBalance` (balance.ts:6-57): zero sentinel on acquisition failure,
missing account data, or a thrown request; session disposed once whenever
acquired. -/
def fetchBalanceRun (env : BalEnv) : BalanceDetails × List Event :=
  match getClientE env.connects with
  | .error _ => (zeroBalance, [])
  | .ok c =>
    let result : BalanceDetails :=
      match env.response with
      | .throw => zeroBalance
      | .ok none => zeroBalance
      | .ok (some accountData) => computeBalanceDetails accountData
    (result, [Event.connect c, Event.disconnect c])

/-- `fetchTransactionDetails` (transactions.ts:13-76): `null` on failure or a
missing result; session disposed once whenever acquired. -/
def fetchTransactionDetailsRun (env : DetailsEnv) :
    Option TransactionDetail × List Event :=
  match getClientE env.connects with
  | .error _ => (none, [])
  | .ok c =>
    let result : Option TransactionDetail :=
      match env.response with
      | .throw => none
      | .ok none => none
      | .ok (some txInfo) => if env.normThrows then none else some (detailsNormalize txInfo)
    (result, [Event.connect c, Event.disconnect c])

/-- Number of times client `c` is disconnected in an event trace. -/
def disconnectCount : List Event → Nat → Nat
  | [], _ => 0
  | Event.connect _ :: es, c => disconnectCount es c
  | Event.disconnect i :: es, c => (if i = c then 1 else 0) + disconnectCount es c

/-! ## Address validation -/

/-- The basic `validateXRPLAddress` of src/services/xrpl.ts:12-15: prefix 'r'
and length between 25 and 35. -/
def validateXRPLAddress (address : String) : Bool :=
  strStartsWith address "r" && decide (25 ≤ address.length) && decide (address.length ≤ 35)

/-- Modelled from the spec: the network's classic-address base58 alphabet.  The
full "checksum-and-alphabet scheme" is implemented by `isValidClassicAddress`
in the external xrpl library, outside this repository; the claims here only
need which characters the alphabet admits. -/
def xrplBase58Alphabet : List Char :=
  "rpshnaf39wBUDNEGHJKLM4PQRST7VWXYZ2bcdeCg65jkm8oFqi1tuvAxyz".data

/-- Does every character of the string belong to the classic-address alphabet. -/
def conformsToAlphabet (s : String) : Bool :=
  s.data.all (fun c => xrplBase58Alphabet.contains c)

/-! ## Helper lemmas -/

theorem str_empty_append (s : String) : "" ++ s = s := rfl

theorem isEmpty_false_of_ne {cs : List Char} (h : cs ≠ []) : cs.isEmpty = false := by
  cases cs with
  | nil => exact absurd rfl h
  | cons a as => rfl

theorem formatXRPAmount_falsy (a : AmountV) (h : truthyA a = false) :
    formatXRPAmount a = "0.000000 XRP" := by
  simp [formatXRPAmount, h]

theorem parseFloatJs_digits (cs : List Char) (h1 : cs ≠ []) (h2 : ∀ c ∈ cs, c.isDigit = true) :
    parseFloatJs ⟨cs⟩ = some ⟨(natOfDigits cs : Int), 1⟩ := by
  have ht : cs.takeWhile Char.isDigit = cs := List.takeWhile_eq_self_iff.mpr (by simpa using h2)
  have hd : cs.dropWhile Char.isDigit = [] := List.dropWhile_eq_nil_iff.mpr (by simpa using h2)
  simp [parseFloatJs, ht, hd, isEmpty_false_of_ne h1]

theorem toFixed6_ofNat_div_million (n : Nat) :
    toFixed6 ((JsNum.ofNat n).div (JsNum.ofNat 1000000)) =
      natStr (n / 1000000) ++ "." ++ padSix (n % 1000000) := by
  have hm : (((JsNum.ofNat n).div (JsNum.ofNat 1000000)).mul (JsNum.ofNat 1000000)).roundQ
      = (n : Int) := by
    simp only [JsNum.ofNat, JsNum.div, JsNum.inv, JsNum.mul, JsNum.add, JsNum.roundQ,
      JsNum.floorQ]
    norm_num
    omega
  simp only [toFixed6, hm]
  rw [if_neg (by exact not_lt.mpr (Int.natCast_nonneg n))]
  rw [Int.natAbs_ofNat]
  rw [str_empty_append]

/-! ## Claims about formatXRPAmount -/

/-- C2: For every raw amount given as a numeric string of smallest network
units (a nonempty string of decimal digits), `formatXRPAmount` returns that
value divided by 1,000,000, printed with the integer part in decimal, exactly
six decimal digits, and the fixed " XRP" suffix. -/
theorem c2_formatXRPAmount_digits (cs : List Char) (h1 : cs ≠ [])
    (h2 : ∀ c ∈ cs, c.isDigit = true) :
    formatXRPAmount (.str ⟨cs⟩) =
      natStr (natOfDigits cs / 1000000) ++ "." ++ padSix (natOfDigits cs % 1000000) ++ " XRP" := by
  have htr : truthyA (.str ⟨cs⟩) = true := by
    simp [truthyA, isEmpty_false_of_ne h1]
  have hv : parseFloatJs ⟨cs⟩ = some (JsNum.ofNat (natOfDigits cs)) :=
    parseFloatJs_digits cs h1 h2
  simp only [formatXRPAmount, htr, Bool.true_eq_false, if_false, hv, Option.map_some',
    toFixed6Opt]
  rw [toFixed6_ofNat_div_million]

/-- C2 witness: the raw string "12345678" renders as "12.345678 XRP". -/
theorem c2_formatXRPAmount_witness :
    formatXRPAmount (.str "12345678") = "12.345678 XRP" := by
  have h := c2_formatXRPAmount_digits "12345678".data (by decide) (by decide)
  exact h.trans (by decide)

/-- C10: `formatXRPAmount` maps every falsy input — `undefined`, the number 0,
and the empty string — to exactly "0.000000 XRP"; a genuinely zero amount
(the digit string "0") renders identically, so a zero amount and a missing
amount are indistinguishable in the canonical output. -/
theorem c10_falsy_amounts :
    formatXRPAmount .undefV = "0.000000 XRP" ∧
    formatXRPAmount (.num (JsNum.ofNat 0)) = "0.000000 XRP" ∧
    formatXRPAmount (.str "") = "0.000000 XRP" ∧
    formatXRPAmount (.str "0") = "0.000000 XRP" := by decide

/-! ## Claims about validateXRPLAddress -/

/-- C3 counterexample: the string "r" followed by twenty-four '0' characters
does not conform to the network's classic-address alphabet ('0' is not a
base58 character), yet the `validateXRPLAddress` of src/services/xrpl.ts
returns true for it, so the validator does not reject every string outside the
alphabet/length/checksum rules. -/
theorem c3_counterexample :
    validateXRPLAddress "r000000000000000000000000" = true ∧
    conformsToAlphabet "r000000000000000000000000" = false := by decide

/-- C3 amended: the `validateXRPLAddress` of src/services/xrpl.ts is pure and
total and returns true exactly when the string starts with 'r' and its length
is between 25 and 35; it does not check the alphabet or the checksum (the
utils.ts variant instead delegates to the external library's
`isValidClassicAddress`). -/
theorem c3_validate_amended (s : String) :
    validateXRPLAddress s = true ↔
      (strStartsWith s "r" = true ∧ 25 ≤ s.length ∧ s.length ≤ 35) := by
  simp [validateXRPLAddress, Bool.and_eq_true, decide_eq_true_eq, and_assoc]

/-! ## Concrete raw-record fixtures -/

/-- A well-formed single-transaction reply used as the base of the fixtures. -/
def blankTxInfo : TxInfo :=
  { hash := some "H", TransactionType := some "Payment", date := none,
    close_time_iso := none, Amount := .undefV, DeliverMax := none, Fee := some "12",
    meta := { delivered_amount := none, TransactionResult := some "tesSUCCESS" },
    SourceTag := none, Account := some "rSender", Destination := some "rDest",
    Memos := [] }

/-- A well-formed `tx_json` envelope used as the base of the list fixtures. -/
def blankTxJson : TxJson :=
  { DeliverMax := none, Amount := .undefV, Destination := none,
    TransactionType := some "Payment", SourceTag := none, Memos := [], date := none,
    Fee := some "12", Account := some "rSender" }

/-! ## C1: amount precedence -/

/-- A detail reply with no delivered amount, `Amount` "1000000" and
`DeliverMax` "2000000". -/
def ti1 : TxInfo := { blankTxInfo with Amount := .str "1000000", DeliverMax := some "2000000" }

/-- C1 counterexample: with `Amount` and `DeliverMax` both present and no
delivered amount, `fetchTransactionDetails` outputs the `Amount` conversion
("1.000000 XRP"), while the claimed precedence (delivered over `DeliverMax`
over `Amount`) would output the `DeliverMax` conversion ("2.000000 XRP"). -/
theorem c1_counterexample :
    ti1.meta.delivered_amount = none ∧
    (detailsNormalize ti1).amount = "1.000000 XRP" ∧
    formatXRPAmount (.str (claimPrecAmount ti1.meta.delivered_amount ti1.DeliverMax ti1.Amount))
      = "2.000000 XRP" ∧
    (detailsNormalize ti1).amount ≠
      formatXRPAmount (.str (claimPrecAmount ti1.meta.delivered_amount ti1.DeliverMax ti1.Amount))
    := by decide

/-- C1 amended: `fetchTransactions` selects the amount exactly by the claimed
precedence (delivered amount over `DeliverMax` over `Amount`), and in
`fetchTransactionDetails` a present delivered amount still wins, and with only
`Amount` present (no delivered amount, no `DeliverMax`) the output is the
`Amount` conversion — but `fetchTransactionDetails` tries `Amount` before
`DeliverMax`, so the full claimed precedence holds only for
`fetchTransactions`. -/
theorem c1_amount_precedence_amended :
    (∀ (txData : TxJson) (meta : TxMeta),
       listAmount txData meta =
         claimPrecAmount meta.delivered_amount txData.DeliverMax txData.Amount) ∧
    (∀ ti : TxInfo, truthyS ti.meta.delivered_amount = true →
       (detailsNormalize ti).amount =
         formatXRPAmount (.str (ti.meta.delivered_amount.getD ""))) ∧
    (∀ ti : TxInfo, ti.meta.delivered_amount = none → ti.DeliverMax = none →
       (detailsNormalize ti).amount = formatXRPAmount ti.Amount) := by
  refine ⟨fun txData meta => rfl, fun ti h => by simp [detailsNormalize, detailsAmountSel, h],
    fun ti h1 h2 => ?_⟩
  simp only [detailsNormalize, detailsAmountSel, h1, h2, truthyS, optToAmount]
  cases htr : truthyA ti.Amount with
  | true => simp [htr]
  | false =>
    simp only [htr, Bool.false_eq_true, if_false]
    exact (formatXRPAmount_falsy AmountV.undefV rfl).trans (formatXRPAmount_falsy ti.Amount htr).symm

/-- A detail reply with delivered amount, `Amount` and `DeliverMax` all
present. -/
def ti1all : TxInfo :=
  { blankTxInfo with
    meta := { delivered_amount := some "5000000", TransactionResult := some "tesSUCCESS" },
    Amount := .str "1000000", DeliverMax := some "2000000" }

/-- A detail reply with only `Amount` present. -/
def ti1only : TxInfo := { blankTxInfo with Amount := .str "1000000" }

/-- C1 witness: with all three amount fields present the detail output equals
the delivered amount converted; with only `Amount` present it equals the
`Amount` conversion. -/
theorem c1_amount_witness :
    (detailsNormalize ti1all).amount = formatXRPAmount (.str "5000000") ∧
    (detailsNormalize ti1only).amount = formatXRPAmount (.str "1000000") ∧
    (detailsNormalize ti1all).amount = "5.000000 XRP" := by
  have h := c1_amount_precedence_amended
  exact ⟨h.2.1 ti1all (by decide), h.2.2 ti1only rfl rfl,
    (h.2.1 ti1all (by decide)).trans (by decide)⟩

/-! ## C9: destination fallback -/

/-- A list envelope of kind OfferCreate with no destination. -/
def txJ9 : TxJson := { blankTxJson with TransactionType := some "OfferCreate" }

/-- A detail reply of kind OfferCreate with no destination. -/
def ti9 : TxInfo :=
  { blankTxInfo with Destination := none, TransactionType := some "OfferCreate" }

/-- C9 counterexample: for an OfferCreate with no destination field,
`fetchTransactionDetails` leaves the counterparty absent instead of
synthesizing the "XRPL DEX" (or "Unknown") sentinel the claim requires. -/
theorem c9_counterexample :
    ti9.TransactionType = some "OfferCreate" ∧
    ti9.Destination = none ∧
    (detailsNormalize ti9).to_ = none ∧
    (detailsNormalize ti9).to_ ≠ some "XRPL DEX" ∧
    (detailsNormalize ti9).to_ ≠ some "Unknown" := by decide

/-- C9 amended: in `fetchTransactions` a missing (or empty) destination is
synthesized as "XRPL DEX" for OfferCreate and "Unknown" for every other kind,
and a present destination is passed through; `fetchTransactionDetails` instead
copies the raw destination field verbatim, leaving it absent when missing. -/
theorem c9_destination_amended :
    (∀ txData : TxJson, truthyS txData.Destination = false →
       listDestination txData =
         (if txData.TransactionType == some "OfferCreate" then "XRPL DEX" else "Unknown")) ∧
    (∀ (txData : TxJson) (s : String), txData.Destination = some s → s.data.isEmpty = false →
       listDestination txData = s) ∧
    (∀ ti : TxInfo, (detailsNormalize ti).to_ = ti.Destination) := by
  refine ⟨fun txData h => ?_, fun txData s h1 h2 => by simp [listDestination, h1, h2],
    fun ti => rfl⟩
  unfold listDestination
  cases hd : txData.Destination with
  | none => rfl
  | some s =>
    have : s.data.isEmpty = true := by
      simpa [truthyS, hd] using h
    simp [this]

/-- C9 witness: the OfferCreate fixture with no destination gets the
"XRPL DEX" sentinel in the list normalizer, while the detail normalizer leaves
the counterparty absent. -/
theorem c9_destination_witness :
    listDestination txJ9 = "XRPL DEX" ∧ (detailsNormalize ti9).to_ = none := by
  exact ⟨(c9_destination_amended.1 txJ9 rfl).trans (by decide),
    (c9_destination_amended.2.2 ti9).trans rfl⟩

/-! ## C5: classification flag (isBitbob) -/

/-- The spec's memo test: the decoded memo text of the first memo entry begins
with the known application prefix "BitBob". -/
def memoBitbob (memos : List MemoObj) : Bool :=
  match memos.head?.bind MemoObj.MemoData with
  | some md => if md.data.isEmpty then false else strStartsWith (hexToAscii md) "BitBob"
  | none => false

theorem hexToAscii_data_ne_empty (md : String) (h : md.data.isEmpty = false) :
    (hexToAscii md).data.isEmpty = false := by
  unfold hexToAscii
  cases hc : md.data with
  | nil => rw [hc] at h; exact absurd h (by decide)
  | cons a rest => cases rest <;> rfl

/-- Lift a list envelope to a detail reply carrying the same claim-relevant
fields. -/
def detailsOf (d : TxJson) : TxInfo :=
  { hash := some "H", TransactionType := d.TransactionType, date := d.date,
    close_time_iso := none, Amount := d.Amount, DeliverMax := d.DeliverMax,
    Fee := d.Fee,
    meta := { delivered_amount := none, TransactionResult := some "tesSUCCESS" },
    SourceTag := d.SourceTag, Account := d.Account, Destination := d.Destination,
    Memos := d.Memos }

/-- Fixture: BitBob source tag, no memo. -/
def txTagOnly : TxJson := { blankTxJson with SourceTag := some (.num 29202152) }

/-- Fixture: no tag, first memo decodes to "BitBobPay". -/
def txMemoOnly : TxJson := { blankTxJson with Memos := [⟨some "426974426F62506179"⟩] }

/-- Fixture: neither tag nor memo. -/
def txNeither : TxJson := blankTxJson

/-- Fixture: a different tag, first memo decodes to "BitBob!". -/
def txMixed : TxJson :=
  { blankTxJson with SourceTag := some (.num 7), Memos := [⟨some "426974426F6221"⟩] }

/-- C5: in both normalizers the classification flag is exactly the OR of the
tag test and the memo-prefix test; in particular tag-and-no-memo classifies
true, memo-"BitBobPay"-and-no-tag classifies true, neither classifies false,
and a different tag with a prefix-matching memo classifies true. -/
theorem c5_isBitbob_or_semantics :
    (∀ txData : TxJson,
       listIsBitbob txData = (bitbobTag txData.SourceTag || memoBitbob txData.Memos)) ∧
    (∀ ti : TxInfo,
       (detailsNormalize ti).isBitbob = (bitbobTag ti.SourceTag || memoBitbob ti.Memos)) ∧
    listIsBitbob txTagOnly = true ∧
    listIsBitbob txMemoOnly = true ∧
    listIsBitbob txNeither = false ∧
    listIsBitbob txMixed = true ∧
    (detailsNormalize (detailsOf txTagOnly)).isBitbob = true ∧
    (detailsNormalize (detailsOf txMemoOnly)).isBitbob = true ∧
    (detailsNormalize (detailsOf txNeither)).isBitbob = false ∧
    (detailsNormalize (detailsOf txMixed)).isBitbob = true := by
  refine ⟨fun txData => ?_, fun ti => ?_, by decide, by decide, by decide, by decide,
    by decide, by decide, by decide, by decide⟩
  · unfold listIsBitbob memoBitbob
    cases hm : txData.Memos with
    | nil => simp
    | cons mo rest =>
      cases hmd : mo.MemoData with
      | none => simp [hmd]
      | some md =>
        cases hie : md.data.isEmpty with
        | true => simp [hmd, hie]
        | false =>
          cases hsw : strStartsWith (hexToAscii md) "BitBob" <;>
            simp [hmd, hie, hsw]
  · simp only [detailsNormalize, memoBitbob]
    cases hmd : ti.Memos.head?.bind MemoObj.MemoData with
    | none => simp
    | some md =>
      cases hie : md.data.isEmpty with
      | true => simp [hie]
      | false => simp [hie, hexToAscii_data_ne_empty md hie]

/-! ## C4: timestamp precedence -/

/-- A detail reply with an epoch date of 1 and an ISO timestamp, disagreeing. -/
def tiDateA : TxInfo :=
  { blankTxInfo with
    date := some (JsNum.ofNat 1), close_time_iso := some "2001-01-01T00:00:00Z" }

/-- Like `tiDateA` but with epoch date 2 and the same ISO timestamp. -/
def tiDateB : TxInfo :=
  { blankTxInfo with
    date := some (JsNum.ofNat 2), close_time_iso := some "2001-01-01T00:00:00Z" }

/-- A detail reply with only the ISO timestamp. -/
def tiDateC : TxInfo :=
  { blankTxInfo with close_time_iso := some "2001-01-01T00:00:00Z" }

/-- C4 counterexample: two detail replies sharing the same present ISO
timestamp but different epoch-offset integers normalize to different dates, and
the result is not the ISO value — so in `fetchTransactionDetails` the
epoch-offset integer, not the ISO field, determines the canonical date when
both are present. -/
theorem c4_counterexample :
    tiDateA.close_time_iso = tiDateB.close_time_iso ∧
    truthyS tiDateA.close_time_iso = true ∧
    truthyJ tiDateA.date = true ∧
    truthyJ tiDateB.date = true ∧
    (detailsNormalize tiDateA).date ≠ (detailsNormalize tiDateB).date ∧
    (detailsNormalize tiDateA).date ≠ tiDateA.close_time_iso := by decide

/-- C4 amended: in `fetchTransactions` a present (truthy) ISO timestamp takes
precedence — the canonical date is derived from it and the epoch-offset
integer is ignored — while in `fetchTransactionDetails` the precedence is
reversed: a truthy epoch-offset integer wins and the ISO field is used only
when the integer date is absent or zero. -/
theorem c4_date_precedence_amended :
    (∀ (iso : Option String) (d : Option JsNum), truthyS iso = true →
       listDate iso d =
         formatXRPLDate ((dateParseMs (iso.getD "")).div (JsNum.ofNat 1000))) ∧
    (∀ e : AccountTxEntry, truthyS e.close_time_iso = true →
       (normalizeListTx e).map Transaction.date =
         (normalizeListTx e).map (fun _ =>
           formatXRPLDate ((dateParseMs (e.close_time_iso.getD "")).div (JsNum.ofNat 1000)))) ∧
    (∀ ti : TxInfo, truthyJ ti.date = true →
       (detailsNormalize ti).date = some (formatXRPLDate (ti.date.getD (JsNum.ofNat 0)))) ∧
    (∀ ti : TxInfo, truthyJ ti.date = false →
       (detailsNormalize ti).date = ti.close_time_iso) := by
  refine ⟨fun iso d h => by simp [listDate, h], fun e h => ?_,
    fun ti h => by simp [detailsNormalize, h], fun ti h => by simp [detailsNormalize, h]⟩
  unfold normalizeListTx
  cases htx : e.tx_json with
  | none => rfl
  | some txd =>
    cases hme : e.meta with
    | none => rfl
    | some m =>
      by_cases hh : truthyS e.hash = false
      · simp [hh]
      · simp [hh, listDate, h]

/-- A well-formed list entry carrying an ISO timestamp. -/
def e4 : AccountTxEntry :=
  { tx_json := some blankTxJson, meta := some ⟨none, some "tesSUCCESS"⟩,
    close_time_iso := some "2001-01-01T00:00:00Z", hash := some "H" }

/-- C4 witness: with the ISO timestamp present, the list date is derived from
it; with a truthy epoch integer the detail date is derived from the integer;
with no epoch integer the detail date is the raw ISO field. -/
theorem c4_date_witness :
    listDate (some "2001-01-01T00:00:00Z") (some (JsNum.ofNat 5)) =
      formatXRPLDate ((dateParseMs "2001-01-01T00:00:00Z").div (JsNum.ofNat 1000)) ∧
    (normalizeListTx e4).map Transaction.date =
      (normalizeListTx e4).map (fun _ =>
        formatXRPLDate ((dateParseMs "2001-01-01T00:00:00Z").div (JsNum.ofNat 1000))) ∧
    (detailsNormalize tiDateA).date = some (formatXRPLDate (JsNum.ofNat 1)) ∧
    (detailsNormalize tiDateC).date = some "2001-01-01T00:00:00Z" := by
  have h := c4_date_precedence_amended
  exact ⟨h.1 _ _ (by decide), h.2.1 e4 (by decide), h.2.2.1 tiDateA (by decide),
    (h.2.2.2 tiDateC (by decide)).trans rfl⟩

/-! ## C6: balance invariants -/

theorem parseFloatJs_den (s : String) (q : JsNum) (h : parseFloatJs s = some q) :
    q.den ≠ 0 := by
  unfold parseFloatJs at h
  split at h
  · exact absurd h (by simp)
  · split at h
    · cases h
      exact pow_ne_zero _ (by norm_num)
    · cases h
      exact one_ne_zero

theorem numberJs_den (o : Option String) (q : JsNum) (h : numberJs o = some q) :
    q.den ≠ 0 := by
  cases o with
  | none => exact absurd h (by simp [numberJs])
  | some s =>
    dsimp only [numberJs] at h
    split at h
    · cases h
      exact one_ne_zero
    · exact parseFloatJs_den s q h

theorem toQ_ofNat (n : Nat) : (JsNum.ofNat n).toQ = n := by
  simp [JsNum.toQ, JsNum.ofNat]

theorem toQ_sub (a b : JsNum) (ha : a.den ≠ 0) (hb : b.den ≠ 0) :
    (a.sub b).toQ = a.toQ - b.toQ := by
  have ha' : (a.den : ℚ) ≠ 0 := Nat.cast_ne_zero.mpr ha
  have hb' : (b.den : ℚ) ≠ 0 := Nat.cast_ne_zero.mpr hb
  simp only [JsNum.toQ, JsNum.sub]
  field_simp
  ring

theorem toQ_maxJ (a b : JsNum) (ha : a.den ≠ 0) (hb : b.den ≠ 0) :
    (a.maxJ b).toQ = max a.toQ b.toQ := by
  have ha' : (0 : ℚ) < (a.den : ℚ) := by
    exact_mod_cast Nat.pos_of_ne_zero ha
  have hb' : (0 : ℚ) < (b.den : ℚ) := by
    exact_mod_cast Nat.pos_of_ne_zero hb
  unfold JsNum.maxJ
  split
  case isTrue h =>
    have hlt : a.num * (b.den : Int) < b.num * (a.den : Int) := by
      simpa [JsNum.blt] using h
    symm
    apply max_eq_right
    rw [JsNum.toQ, JsNum.toQ, div_le_div_iff₀ ha' hb']
    exact_mod_cast le_of_lt hlt
  case isFalse h =>
    have hle : b.num * (a.den : Int) ≤ a.num * (b.den : Int) := by
      simpa [JsNum.blt] using h
    symm
    apply max_eq_left
    rw [JsNum.toQ, JsNum.toQ, div_le_div_iff₀ hb' ha']
    exact_mod_cast hle

/-- "Rendered with six-decimal precision in the display unit": an integer part,
a dot, exactly six fraction digits, and the " XRP" suffix. -/
def sixDecimalXRP (s : String) : Prop :=
  ∃ a b : String, s = a ++ "." ++ b ++ " XRP" ∧ b.length = 6

theorem sixDecimalXRP_toFixed6 (q : JsNum) : sixDecimalXRP (toFixed6 q ++ " XRP") :=
  ⟨(if (q.mul (JsNum.ofNat 1000000)).roundQ < 0 then "-" else "") ++
      natStr ((q.mul (JsNum.ofNat 1000000)).roundQ.natAbs / 1000000),
    padSix ((q.mul (JsNum.ofNat 1000000)).roundQ.natAbs % 1000000), rfl, rfl⟩

/-- The reserve requirement computed by `fetchBalance`: base reserve 10 XRP
plus 2 XRP per account-held object. -/
def reserveRequirementOf (a : AccountData) : JsNum :=
  (JsNum.ofNat 10).add ((JsNum.ofNat (a.OwnerCount.getD 0)).mul (JsNum.ofNat 2))

theorem div_million_den (q : JsNum) :
    (q.div (JsNum.ofNat 1000000)).den = q.den * 1000000 := by
  simp [JsNum.div, JsNum.mul, JsNum.inv, JsNum.ofNat]

theorem reserveRequirementOf_den (a : AccountData) : (reserveRequirementOf a).den = 1 := rfl

/-- C6: for every successfully parsed balance, the reserve equals the base
reserve plus owner-count times the per-object reserve, the spendable amount is
max(0, total − reserve), and total, available and reserve are all rendered via
`toFixed(6)` with the " XRP" suffix (six-decimal precision, same unit). -/
theorem c6_balance_invariants (a : AccountData) (q : JsNum)
    (h : numberJs a.Balance = some q) :
    (reserveRequirementOf a).toQ = 10 + 2 * (a.OwnerCount.getD 0 : ℚ) ∧
    (computeBalanceDetails a).reserve = toFixed6 (reserveRequirementOf a) ++ " XRP" ∧
    (computeBalanceDetails a).total = toFixed6 (q.div (JsNum.ofNat 1000000)) ++ " XRP" ∧
    (computeBalanceDetails a).available =
      toFixed6 ((JsNum.ofNat 0).maxJ
        ((q.div (JsNum.ofNat 1000000)).sub (reserveRequirementOf a))) ++ " XRP" ∧
    ((JsNum.ofNat 0).maxJ ((q.div (JsNum.ofNat 1000000)).sub (reserveRequirementOf a))).toQ
      = max 0 ((q.div (JsNum.ofNat 1000000)).toQ - (reserveRequirementOf a).toQ) ∧
    sixDecimalXRP (computeBalanceDetails a).total ∧
    sixDecimalXRP (computeBalanceDetails a).available ∧
    sixDecimalXRP (computeBalanceDetails a).reserve := by
  have hq : q.den ≠ 0 := numberJs_den _ _ h
  have hdiv : (q.div (JsNum.ofNat 1000000)).den ≠ 0 := by
    rw [div_million_den]
    exact Nat.mul_ne_zero hq (by norm_num)
  have hres : (reserveRequirementOf a).den ≠ 0 := by
    rw [reserveRequirementOf_den]
    exact one_ne_zero
  have hsub : ((q.div (JsNum.ofNat 1000000)).sub (reserveRequirementOf a)).den ≠ 0 := by
    simp only [JsNum.sub]
    exact Nat.mul_ne_zero hdiv hres
  have htotal : (computeBalanceDetails a).total
      = toFixed6 (q.div (JsNum.ofNat 1000000)) ++ " XRP" := by
    simp [computeBalanceDetails, h, toFixed6Opt]
  have havail : (computeBalanceDetails a).available
      = toFixed6 ((JsNum.ofNat 0).maxJ
          ((q.div (JsNum.ofNat 1000000)).sub (reserveRequirementOf a))) ++ " XRP" := by
    simp [computeBalanceDetails, h, toFixed6Opt, reserveRequirementOf]
  refine ⟨?_, rfl, htotal, havail, ?_, ?_, ?_, ?_⟩
  · simp [reserveRequirementOf, JsNum.toQ, JsNum.add, JsNum.mul, JsNum.ofNat]
    ring
  · rw [toQ_maxJ _ _ one_ne_zero hsub, toQ_sub _ _ hdiv hres, toQ_ofNat]
    norm_num
  · rw [htotal]
    exact sixDecimalXRP_toFixed6 _
  · rw [havail]
    exact sixDecimalXRP_toFixed6 _
  · exact sixDecimalXRP_toFixed6 _

/-- An account-state fixture: 25 XRP in drops, three held objects. -/
def a6 : AccountData := { Balance := some "25000000", OwnerCount := some 3 }

/-- C6 witness: 25 XRP with three held objects gives reserve 16 XRP,
available 9 XRP, all rendered with six decimals. -/
theorem c6_balance_witness :
    numberJs a6.Balance = some (JsNum.ofNat 25000000) ∧
    (computeBalanceDetails a6).reserve = "16.000000 XRP" ∧
    (computeBalanceDetails a6).total = "25.000000 XRP" ∧
    (computeBalanceDetails a6).available = "9.000000 XRP" := by
  have h := c6_balance_invariants a6 (JsNum.ofNat 25000000) (by decide)
  exact ⟨by decide, h.2.1.trans (by decide), h.2.2.1.trans (by decide),
    h.2.2.2.1.trans (by decide)⟩

/-! ## C7: swallow-and-default on failure; C8: session disposal -/

theorem getClientE_allFail (l : List Bool) (h : ∀ b ∈ l, b = false) :
    getClientE l = .error () := by
  induction l with
  | nil => rfl
  | cons b rest ih =>
    have hb : b = false := h b (List.mem_cons_self b rest)
    rw [getClientE, hb, ih (fun x hx => h x (List.mem_cons_of_mem _ hx))]
    rfl

/-- C7: when every endpoint fails to connect, `fetchTransactions` returns the
empty list and `fetchBalance` the zero-balance sentinel; the same defaults are
returned when the request throws, when the reply is malformed (missing result
content), and when normalization throws — no exception escapes the façade,
which by construction always returns a value. -/
theorem c7_exhaustion_defaults :
    (∀ env : TxEnv, (∀ b ∈ env.connects, b = false) → (fetchTransactionsRun env).1 = []) ∧
    (∀ env : BalEnv, (∀ b ∈ env.connects, b = false) → (fetchBalanceRun env).1 = zeroBalance) ∧
    (∀ env : TxEnv, env.response = ReqOutcome.throw → (fetchTransactionsRun env).1 = []) ∧
    (∀ env : TxEnv, env.normThrows = true → (fetchTransactionsRun env).1 = []) ∧
    (∀ env : BalEnv, env.response = ReqOutcome.throw → (fetchBalanceRun env).1 = zeroBalance) ∧
    (∀ env : BalEnv, env.response = ReqOutcome.ok none →
       (fetchBalanceRun env).1 = zeroBalance) := by
  refine ⟨fun env h => ?_, fun env h => ?_, fun env h => ?_, fun env h => ?_,
    fun env h => ?_, fun env h => ?_⟩
  · unfold fetchTransactionsRun
    rw [getClientE_allFail env.connects h]
  · unfold fetchBalanceRun
    rw [getClientE_allFail env.connects h]
  · unfold fetchTransactionsRun
    cases hget : getClientE env.connects with
    | error e => rfl
    | ok c => rw [h]
  · unfold fetchTransactionsRun
    cases hget : getClientE env.connects with
    | error e => rfl
    | ok c =>
      cases hresp : env.response with
      | throw => rfl
      | ok o =>
        cases o with
        | none => rfl
        | some entries => simp [h]
  · unfold fetchBalanceRun
    cases hget : getClientE env.connects with
    | error e => rfl
    | ok c => rw [h]
  · unfold fetchBalanceRun
    cases hget : getClientE env.connects with
    | error e => rfl
    | ok c => rw [h]

/-- A pool where every endpoint fails, with a well-formed reply behind it. -/
def envT7a : TxEnv := ⟨[false, false, false], .ok none, false⟩

/-- A two-endpoint pool where both fail. -/
def envB7a : BalEnv := ⟨[false, false], .ok none⟩

/-- A connected session whose request throws. -/
def envT7b : TxEnv := ⟨[true], .throw, false⟩

/-- A connected session whose reply normalization throws. -/
def envT7c : TxEnv := ⟨[false, true], .ok (some [e4]), true⟩

/-- A connected balance session whose request throws. -/
def envB7b : BalEnv := ⟨[true], .throw⟩

/-- A connected balance session with a reply missing the account data. -/
def envB7c : BalEnv := ⟨[true], .ok none⟩

/-- C7 witness: the defaults at concrete exhausted/throwing environments. -/
theorem c7_exhaustion_witness :
    (fetchTransactionsRun envT7a).1 = [] ∧
    (fetchBalanceRun envB7a).1 = zeroBalance ∧
    (fetchTransactionsRun envT7b).1 = [] ∧
    (fetchTransactionsRun envT7c).1 = [] ∧
    (fetchBalanceRun envB7b).1 = zeroBalance ∧
    (fetchBalanceRun envB7c).1 = zeroBalance := by
  have h := c7_exhaustion_defaults
  exact ⟨h.1 envT7a (by decide), h.2.1 envB7a (by decide), h.2.2.1 envT7b rfl,
    h.2.2.2.1 envT7c rfl, h.2.2.2.2.1 envB7b rfl, h.2.2.2.2.2 envB7c rfl⟩

/-- C8: whenever a façade operation acquires a session (client `c`), its event
trace disconnects `c` exactly once — over every environment, hence on every
exit path: normal return, defaulted early return, request throw, and
normalization throw. -/
theorem c8_disconnect_once :
    (∀ (env : TxEnv) (c : Nat), getClientE env.connects = .ok c →
       disconnectCount (fetchTransactionsRun env).2 c = 1) ∧
    (∀ (env : BalEnv) (c : Nat), getClientE env.connects = .ok c →
       disconnectCount (fetchBalanceRun env).2 c = 1) ∧
    (∀ (env : DetailsEnv) (c : Nat), getClientE env.connects = .ok c →
       disconnectCount (fetchTransactionDetailsRun env).2 c = 1) := by
  refine ⟨fun env c h => ?_, fun env c h => ?_, fun env c h => ?_⟩
  · unfold fetchTransactionsRun
    rw [h]
    simp [disconnectCount]
  · unfold fetchBalanceRun
    rw [h]
    simp [disconnectCount]
  · unfold fetchTransactionDetailsRun
    rw [h]
    simp [disconnectCount]

/-- A pool whose second endpoint connects. -/
def envT8 : TxEnv := ⟨[false, true], .ok none, false⟩

/-- A single-endpoint pool that connects. -/
def envB8 : BalEnv := ⟨[true], .ok none⟩

/-- A single-endpoint pool that connects, for the detail query. -/
def envD8 : DetailsEnv := ⟨[true], .ok none, false⟩

/-- C8 witness: each operation's concrete trace disconnects the acquired
client exactly once. -/
theorem c8_disconnect_witness :
    disconnectCount (fetchTransactionsRun envT8).2 1 = 1 ∧
    disconnectCount (fetchBalanceRun envB8).2 0 = 1 ∧
    disconnectCount (fetchTransactionDetailsRun envD8).2 0 = 1 := by
  have h := c8_disconnect_once
  exact ⟨h.1 envT8 1 rfl, h.2.1 envB8 0 rfl, h.2.2 envD8 0 rfl⟩
